import Mathlib

set_option maxRecDepth 8000

namespace SnortApi

/-! Verification development for the snort-api repository.

The repository file `snort_api.py` in this revision is the persistence-only
variant: a FastAPI CRUD layer over one MySQL table (`snort_alerts`).  The
signature-based SQL-injection detector described by the specification is not
present in the source tree; its signature table, matching order and result
contract are therefore modelled from the specification and marked as such
below.  The CRUD endpoints (`receive_snort_alert`, `get_snort_alerts`,
`delete_snort_alert`) are embedded from the source. -/

/-- Detection result of the signature matcher: sum type of a match carrying
the signature label, or no match. -/
inductive DetectionResult where
  | matched (label : String)
  | noMatch
  deriving DecidableEq

/-- Characters of a string, as a list. -/
def strL (s : String) : List Char := s.data

/-- Lowercased characters of the raw input: models case-insensitive regex
search (the raw input is not otherwise normalized or decoded). -/
def lowerData (s : String) : List Char := s.data.map Char.toLower

/-- `leadsWith p l` holds when the pattern `p` is a prefix of `l`
(a regex match anchored at the current position). -/
def leadsWith : List Char → List Char → Bool
  | [], _ => true
  | _ :: _, [] => false
  | p :: ps, c :: cs => (p == c) && leadsWith ps cs

/-- `containsL p l` holds when pattern `p` occurs as a contiguous substring
of `l` (regex search of a literal pattern, not a full match). -/
def containsL (p : List Char) : List Char → Bool
  | [] => leadsWith p []
  | c :: t => leadsWith p (c :: t) || containsL p t

/-- `containsSeq a b l` holds when an occurrence of `a` in `l` is followed,
after its end, by an occurrence of `b`: models a regex search of the form
`a.*b` (keyword pair with intervening tokens allowed). -/
def containsSeq (a b : List Char) : List Char → Bool
  | [] => leadsWith a [] && containsL b []
  | c :: t =>
    (leadsWith a (c :: t) && containsL b (List.drop a.length (c :: t))) ||
    containsSeq a b t

/-- Space character. -/
def spaceCh : Char := Char.ofNat 32

/-- Single-quote character. -/
def quoteCh : Char := Char.ofNat 39

/-- Semicolon character. -/
def semiCh : Char := Char.ofNat 59

/-- Modelled from the spec: signature 1 of the detector missing from the
source tree, the keyword pairs `UNION...SELECT` / `SELECT...FROM` with
intervening tokens allowed. -/
def sigUnionSelect (low : List Char) : Bool :=
  containsSeq (strL "union") (strL "select") low ||
  containsSeq (strL "select") (strL "from") low

/-- Modelled from the spec: signature 2, the keyword pairs `INSERT...INTO` /
`DROP...TABLE`. -/
def sigInsertDrop (low : List Char) : Bool :=
  containsSeq (strL "insert") (strL "into") low ||
  containsSeq (strL "drop") (strL "table") low

/-- Modelled from the spec: signature 3, SQL comment markers. -/
def sigComment (low : List Char) : Bool :=
  containsL (strL "--") low || containsL (strL "/*") low ||
  containsL (strL "*/") low

/-- Modelled from the spec: signature 4, a quote-terminated boolean escape:
a single quote followed, after optional spaces, by `)`, `or` or `and`. -/
def sigQuoteEsc : List Char → Bool
  | [] => false
  | c :: t =>
    (c == quoteCh &&
      (leadsWith (strL ")") (List.dropWhile (fun x => x == spaceCh) t) ||
       leadsWith (strL "or") (List.dropWhile (fun x => x == spaceCh) t) ||
       leadsWith (strL "and") (List.dropWhile (fun x => x == spaceCh) t))) ||
    sigQuoteEsc t

/-- Modelled from the spec: signature 5, the contiguous literal
`UNION SELECT`. -/
def sigLiteralUnion (low : List Char) : Bool :=
  containsL (strL "union select") low

/-- Modelled from the spec: signature 6, boolean tautologies. -/
def sigBoolTaut (low : List Char) : Bool :=
  containsL (strL "or 1=1") low || containsL (strL "and 1=1") low

/-- Modelled from the spec: signature 7, time-based functions. -/
def sigTimeBased (low : List Char) : Bool :=
  containsL (strL "sleep(") low || containsL (strL "benchmark(") low

/-- Keywords accepted after a semicolon by the stacked-query signature. -/
def stackedKws : List (List Char) :=
  [strL "select", strL "insert", strL "update", strL "delete", strL "drop"]

/-- Modelled from the spec: signature 8, a stacked query: a semicolon
followed, after optional spaces, by a data-manipulation keyword. -/
def sigStacked : List Char → Bool
  | [] => false
  | c :: t =>
    (c == semiCh &&
      stackedKws.any (fun k => leadsWith k (List.dropWhile (fun x => x == spaceCh) t))) ||
    sigStacked t

/-- Modelled from the spec: signature 9, stored-procedure name markers. -/
def sigStoredProc (low : List Char) : Bool :=
  containsL (strL "xp_") low || containsL (strL "sp_") low

/-- Modelled from the spec: signature 10, type-conversion functions. -/
def sigTypeConv (low : List Char) : Bool :=
  containsL (strL "cast(") low || containsL (strL "convert(") low

/-- Modelled from the spec: the ordered ten-signature table of the detector
missing from the source tree, fixed at process start; each entry is a
predicate over the lowercased input paired with its label. -/
def signatures : List ((List Char → Bool) × String) :=
  [(sigUnionSelect, "UNION/SELECT detected"),
   (sigInsertDrop, "INSERT/DROP detected"),
   (sigComment, "SQL comment detected"),
   (sigQuoteEsc, "SQL escape sequence detected"),
   (sigLiteralUnion, "UNION SELECT detected"),
   (sigBoolTaut, "Boolean-based SQLi detected"),
   (sigTimeBased, "Time-based SQLi detected"),
   (sigStacked, "Stacked query detected"),
   (sigStoredProc, "Stored procedure detected"),
   (sigTypeConv, "Type conversion detected")]

/-- First-match scan over a signature table: the label of the first
signature whose predicate accepts the input wins; an empty table yields
`noMatch`. -/
def firstHit (low : List Char) : List ((List Char → Bool) × String) → DetectionResult
  | [] => .noMatch
  | (f, lab) :: rest => if f low then .matched lab else firstHit low rest

/-- Modelled from the spec: `classify`, the contract of the signature
matcher missing from the source tree — evaluate the fixed table in priority
order against the lowercased raw input and return the first match. -/
def classify (input : String) : DetectionResult :=
  firstHit (lowerData input) signatures

example : classify "" = .noMatch := by decide
example : classify "hello world" = .noMatch := by decide
example : classify "SELECT * FROM users" = .matched "UNION/SELECT detected" := by decide
example : classify "admin\x27 OR 1=1 --" = .matched "SQL comment detected" := by decide
example : classify "1; DROP TABLE users;" = .matched "INSERT/DROP detected" := by decide

theorem leadsWith_iff (p : List Char) : ∀ l, leadsWith p l = true ↔ ∃ v, p ++ v = l := by
  induction p with
  | nil => intro l; simp [leadsWith]
  | cons a ps ih =>
    intro l
    cases l with
    | nil => simp [leadsWith]
    | cons c cs => simp [leadsWith, ih, List.cons.injEq, exists_and_left]

theorem containsL_iff (p : List Char) : ∀ l, containsL p l = true ↔ ∃ u v, u ++ p ++ v = l := by
  intro l
  induction l with
  | nil => simp [containsL, leadsWith_iff, List.append_eq_nil]
  | cons c t ih =>
    simp only [containsL, Bool.or_eq_true, leadsWith_iff, ih]
    constructor
    · rintro (⟨v, h⟩ | ⟨u, v, h⟩)
      · exact ⟨[], v, by simpa using h⟩
      · exact ⟨c :: u, v, by simp [h]⟩
    · rintro ⟨u, v, h⟩
      cases u with
      | nil => exact Or.inl ⟨v, by simpa using h⟩
      | cons a u =>
        simp only [List.cons_append, List.cons.injEq] at h
        exact Or.inr ⟨u, v, h.2⟩

theorem containsSeq_here (a b l : List Char) (h1 : leadsWith a l = true)
    (h2 : containsL b (List.drop a.length l) = true) : containsSeq a b l = true := by
  cases l with
  | nil =>
    rw [List.drop_nil] at h2
    simp [containsSeq, h1, h2]
  | cons c t =>
    simp [containsSeq, h1, h2]

theorem containsSeq_of_parts (a b : List Char) :
    ∀ u w v l : List Char, u ++ a ++ (w ++ b ++ v) = l → containsSeq a b l = true := by
  intro u
  induction u with
  | nil =>
    intro w v l h
    rw [List.nil_append] at h
    subst h
    apply containsSeq_here
    · rw [leadsWith_iff]
      exact ⟨w ++ b ++ v, rfl⟩
    · rw [List.drop_left, containsL_iff]
      exact ⟨w, v, rfl⟩
  | cons x u ih =>
    intro w v l h
    rw [List.cons_append, List.cons_append] at h
    subst h
    have htail := ih w v (u ++ a ++ (w ++ b ++ v)) rfl
    simp only [containsSeq, Bool.or_eq_true]
    exact Or.inr htail

theorem containsSeq_of_containsL (a m b l : List Char)
    (h : containsL (a ++ m ++ b) l = true) : containsSeq a b l = true := by
  rcases (containsL_iff _ _).mp h with ⟨u, v, hv⟩
  apply containsSeq_of_parts a b u m v l
  simpa [List.append_assoc] using hv

/-- C1: the classifier is total and failure-free — in this total embedding,
every input string's classification terminates in exactly one of the two
`DetectionResult` outcomes (a labelled match or `noMatch`); no other outcome
or exception exists. -/
theorem classify_total (s : String) :
    classify s = DetectionResult.noMatch ∨
    ∃ lab, classify s = DetectionResult.matched lab := by
  cases h : classify s with
  | matched lab => exact Or.inr ⟨lab, rfl⟩
  | noMatch => exact Or.inl rfl

/-- C2: on the input `admin' OR 1=1 --`, both the SQL-comment signature
(number 3) and the quote-escape signature (number 4) match, and `classify`
returns the label of the earlier signature, "SQL comment detected". -/
theorem tiebreak_sql_comment :
    sigComment (lowerData "admin\x27 OR 1=1 --") = true ∧
    sigQuoteEsc (lowerData "admin\x27 OR 1=1 --") = true ∧
    classify "admin\x27 OR 1=1 --" = DetectionResult.matched "SQL comment detected" :=
  ⟨by decide, by decide, by decide⟩

/-- C3: every string containing the contiguous substring `UNION SELECT` in
any letter case is classified as a match labelled either
"UNION/SELECT detected" or "UNION SELECT detected" (the priority table makes
it the former, since signature 1 subsumes the contiguous literal). -/
theorem union_select_label (s : String)
    (h : containsL (strL "union select") (lowerData s) = true) :
    classify s = DetectionResult.matched "UNION/SELECT detected" ∨
    classify s = DetectionResult.matched "UNION SELECT detected" := by
  left
  have h1 : containsSeq (strL "union") (strL "select") (lowerData s) = true := by
    apply containsSeq_of_containsL (strL "union") (strL " ") (strL "select")
    have e : strL "union" ++ strL " " ++ strL "select" = strL "union select" := by decide
    rw [e]
    exact h
  show firstHit (lowerData s) signatures = DetectionResult.matched "UNION/SELECT detected"
  simp [signatures, firstHit, sigUnionSelect, h1]

theorem union_select_label_witness :
    classify "uNiOn SeLeCt password FROM users" = DetectionResult.matched "UNION/SELECT detected" ∨
    classify "uNiOn SeLeCt password FROM users" = DetectionResult.matched "UNION SELECT detected" :=
  union_select_label "uNiOn SeLeCt password FROM users" (by decide)

/-- C4: the empty input matches none of the ten signatures in the table and
`classify ""` returns `noMatch`. -/
theorem classify_empty :
    (signatures.all fun p => !p.1 (lowerData "")) = true ∧
    classify "" = DetectionResult.noMatch :=
  ⟨by decide, by decide⟩

/-- C5: matching is a case-insensitive search over the raw input — any two
inputs with the same lowercasing classify identically; in particular the
spec's pair `union select * from t` / `UNION SELECT * FROM T` (the witness)
yield identical results. -/
theorem classify_case_insensitive (s t : String)
    (h : lowerData s = lowerData t) : classify s = classify t := by
  unfold classify
  rw [h]

theorem classify_case_insensitive_witness :
    classify "union select * from t" = classify "UNION SELECT * FROM T" :=
  classify_case_insensitive "union select * from t" "UNION SELECT * FROM T" (by decide)

/-- One run of the first-match scan, as a relation: each call walks the
read-only signature table and commits to the first accepting signature.
Two hypothetical calls on the same input are two derivations of this
relation; the matcher keeps no other state. -/
inductive ClassifiesTo (low : List Char) :
    List ((List Char → Bool) × String) → DetectionResult → Prop
  | nil : ClassifiesTo low [] DetectionResult.noMatch
  | here {f : List Char → Bool} {lab : String} {rest} :
      f low = true → ClassifiesTo low ((f, lab) :: rest) (DetectionResult.matched lab)
  | skip {f : List Char → Bool} {lab : String} {rest r} :
      f low = false → ClassifiesTo low rest r → ClassifiesTo low ((f, lab) :: rest) r

theorem classifiesTo_firstHit (low : List Char) :
    ∀ tbl, ClassifiesTo low tbl (firstHit low tbl) := by
  intro tbl
  induction tbl with
  | nil => exact ClassifiesTo.nil
  | cons p rest ih =>
    obtain ⟨f, lab⟩ := p
    by_cases h : f low = true
    · simpa [firstHit, h] using ClassifiesTo.here h
    · rw [Bool.not_eq_true] at h
      simpa [firstHit, h] using ClassifiesTo.skip h ih

theorem classifiesTo_unique (low : List Char)
    {tbl : List ((List Char → Bool) × String)} {r₁ r₂ : DetectionResult}
    (h1 : ClassifiesTo low tbl r₁) (h2 : ClassifiesTo low tbl r₂) : r₁ = r₂ := by
  induction h1 generalizing r₂ with
  | nil =>
    cases h2
    rfl
  | here hf =>
    cases h2 with
    | here hf2 => rfl
    | skip hf2 h2t => simp [hf] at hf2
  | skip hf h1t ih =>
    cases h2 with
    | here hf2 => simp [hf2] at hf
    | skip hf2 h2t => exact ih h2t

/-- C6: the matcher is deterministic and stateless — any two runs of the
first-match scan on the same input (two calls to `classify`) produce the
same result, and that result is the one `classify` computes; no hidden
state can change a later call's answer. -/
theorem classify_deterministic (s : String) (r₁ r₂ : DetectionResult)
    (h₁ : ClassifiesTo (lowerData s) signatures r₁)
    (h₂ : ClassifiesTo (lowerData s) signatures r₂) :
    r₁ = r₂ ∧ r₁ = classify s := by
  refine ⟨classifiesTo_unique (lowerData s) h₁ h₂, ?_⟩
  have hrun : ClassifiesTo (lowerData s) signatures (classify s) := by
    unfold classify
    exact classifiesTo_firstHit (lowerData s) signatures
  exact classifiesTo_unique (lowerData s) h₁ hrun

theorem classify_deterministic_witness :
    DetectionResult.noMatch = DetectionResult.noMatch ∧
    DetectionResult.noMatch = classify "hello world" := by
  have h0 : ClassifiesTo (lowerData "hello world") signatures (classify "hello world") := by
    unfold classify
    exact classifiesTo_firstHit (lowerData "hello world") signatures
  have e : classify "hello world" = DetectionResult.noMatch := by decide
  rw [e] at h0
  exact classify_deterministic "hello world" DetectionResult.noMatch DetectionResult.noMatch h0 h0

/-- Truncation of a string to its first 100 characters (the `[:100]` slice
applied to the input before it is embedded in a summary). -/
def truncate100 (s : String) : String := String.mk (s.data.take 100)

/-- Modelled from the spec: the alert summary built by the detection caller
missing from the source tree — the matched label concatenated with the
input truncated to 100 characters. -/
def mkSummary (label input : String) : String := label ++ truncate100 input

/-- Result bundle of the detection call: either an attack-detected record or
the safe result. -/
inductive DetectionOutcome where
  | attackDetected (attack_type severity pattern input : String)
  | safe
  deriving DecidableEq

/-- Modelled from the spec: the detection endpoint missing from the source
tree — classify the input; on a match return the attack-detected bundle
carrying the matched label and the input truncated to 100 characters,
otherwise the safe result. -/
def detectionCall (input : String) : DetectionOutcome :=
  match classify input with
  | DetectionResult.matched lab =>
      DetectionOutcome.attackDetected "SQL INJECTION" "HIGH" lab (truncate100 input)
  | DetectionResult.noMatch => DetectionOutcome.safe

/-- C7: on a match, the result bundle carries the input truncated to 100
characters, and the summary is the label concatenated with that truncation,
which has length at most 100 and is a prefix of the input. -/
theorem summary_truncation (s lab : String)
    (h : classify s = DetectionResult.matched lab) :
    detectionCall s =
      DetectionOutcome.attackDetected "SQL INJECTION" "HIGH" lab (truncate100 s) ∧
    mkSummary lab s = lab ++ truncate100 s ∧
    (truncate100 s).length ≤ 100 ∧
    (truncate100 s).data <+: s.data := by
  refine ⟨by simp [detectionCall, h], rfl, ?_, ?_⟩
  · show (s.data.take 100).length ≤ 100
    simp
  · exact ⟨s.data.drop 100, List.take_append_drop 100 s.data⟩

theorem summary_truncation_witness :
    detectionCall "UNION SELECT 1" =
      DetectionOutcome.attackDetected "SQL INJECTION" "HIGH" "UNION/SELECT detected"
        (truncate100 "UNION SELECT 1") ∧
    mkSummary "UNION/SELECT detected" "UNION SELECT 1" =
      "UNION/SELECT detected" ++ truncate100 "UNION SELECT 1" ∧
    (truncate100 "UNION SELECT 1").length ≤ 100 ∧
    (truncate100 "UNION SELECT 1").data <+: "UNION SELECT 1".data :=
  summary_truncation "UNION SELECT 1" "UNION/SELECT detected" (by decide)

/-- The triple-quoted SQL text of `get_snort_alerts` (source lines
235-247): an ordinary string literal, not an f-string, so the brace groups
at the end are literal characters of the query. -/
def get_snort_alerts_query : String :=
  "\n        SELECT \n            id,\n            attack_type,\n            source_ip,\n            destination_ip,\n            rule_priority,\n            summary,\n            DATE_FORMAT(alert_time, \x27%Y-%m-%d %H:%i:%s\x27) as alert_time\n        FROM snort_alerts\n        ORDER BY alert_time DESC\n        LIMIT \x7blimit\x7d OFFSET \x7boffset\x7d\n        "

/-- Observable effect of one `get_snort_alerts` call: the SQL text passed
to `cursor.execute` and the limit/offset fields echoed in the response. -/
structure GetAlertsCall where
  executed_query : String
  echoed_limit : Int
  echoed_offset : Int

/-- Embeds `get_snort_alerts` (source lines 219-270): `limit` is capped at
100, the constant query text is executed, and the capped limit and the raw
offset are echoed in the response body. -/
def get_snort_alerts (limit offset : Int) : GetAlertsCall :=
  { executed_query := get_snort_alerts_query,
    echoed_limit := min limit 100,
    echoed_offset := offset }

/-- C8: the SQL text passed to `cursor.execute` is the same constant for
every limit/offset pair, contains the literal characters
`LIMIT \x7blimit\x7d OFFSET \x7boffset\x7d`, and the `min limit 100` cap
affects only the echoed response field. -/
theorem get_snort_alerts_query_constant (l o : Int) :
    (get_snort_alerts l o).executed_query = get_snort_alerts_query ∧
    containsL (strL "LIMIT \x7blimit\x7d OFFSET \x7boffset\x7d")
      (strL get_snort_alerts_query) = true ∧
    (get_snort_alerts l o).echoed_limit = min l 100 ∧
    (get_snort_alerts l o).echoed_offset = o :=
  ⟨rfl, by decide, rfl, rfl⟩

/-- Request body model of the `SnortAlert` pydantic class (source lines
45-51): `destination_ip` and `alert_time` are optional, all other fields
are required strings. -/
structure SnortAlert where
  attack_type : String
  source_ip : String
  destination_ip : Option String
  rule_priority : String
  summary : String
  alert_time : Option String

/-- Python `a or b` on an optional string: `None` and the empty string are
falsy and yield `b`; any other string is returned unchanged. -/
def pyOrStr (a : Option String) (b : String) : String :=
  match a with
  | none => b
  | some s => if s = "" then b else s

/-- Row of values bound to the parameterized INSERT of
`receive_snort_alert`. -/
structure InsertValues where
  attack_type : String
  source_ip : String
  destination_ip : Option String
  rule_priority : String
  summary : String
  alert_time : String

/-- Embeds `receive_snort_alert` (source lines 134-188): the inserted
`alert_time` is `alert.alert_time or now` and all other columns pass
through unchanged; `now` stands for the current local time formatted
`%Y-%m-%d %H:%M:%S`. -/
def receive_snort_alert (alert : SnortAlert) (now : String) : InsertValues :=
  { attack_type := alert.attack_type,
    source_ip := alert.source_ip,
    destination_ip := alert.destination_ip,
    rule_priority := alert.rule_priority,
    summary := alert.summary,
    alert_time := pyOrStr alert.alert_time now }

/-- C9: the inserted `alert_time` is the caller-supplied value exactly when
that value is a non-empty string; when the field is omitted or the empty
string, the formatted current time is inserted instead. -/
theorem alert_time_default (alert : SnortAlert) (now : String) :
    (∀ s, alert.alert_time = some s → s ≠ "" →
      (receive_snort_alert alert now).alert_time = s) ∧
    ((alert.alert_time = none ∨ alert.alert_time = some "") →
      (receive_snort_alert alert now).alert_time = now) := by
  constructor
  · intro s hs hne
    simp [receive_snort_alert, pyOrStr, hs, hne]
  · rintro (h | h) <;> simp [receive_snort_alert, pyOrStr, h]

theorem alert_time_default_witness :
    (receive_snort_alert
      ⟨"SQL Injection Attempt", "192.168.1.100", some "10.0.0.1", "High",
        "demo", some "2025-01-01 00:00:00"⟩
      "2026-10-12 12:00:00").alert_time = "2025-01-01 00:00:00" ∧
    (receive_snort_alert ⟨"A", "B", none, "C", "D", none⟩
      "2026-10-12 12:00:00").alert_time = "2026-10-12 12:00:00" ∧
    (receive_snort_alert ⟨"A", "B", none, "C", "D", some ""⟩
      "2026-10-12 12:00:00").alert_time = "2026-10-12 12:00:00" :=
  ⟨(alert_time_default _ _).1 _ rfl (by decide),
   (alert_time_default _ _).2 (Or.inl rfl),
   (alert_time_default _ _).2 (Or.inr rfl)⟩

/-- Exceptions relevant to `delete_snort_alert`: FastAPI's `HTTPException`
(carrying a status code and detail) and `mysql.connector.Error`. -/
inductive PyExc where
  | httpExc (status : Nat) (detail : String)
  | dbError (msg : String)
  deriving DecidableEq

/-- Success body of `delete_snort_alert`. -/
structure DeleteOk where
  success : Bool
  message : String
  deriving DecidableEq

/-- The `try` block of `delete_snort_alert` (source lines 317-331) over an
abstract table state: `db` lists the stored row ids and `dbFail` injects a
`mysql.connector.Error` from the driver when present.  The DELETE removes
every row with the given id; `rowcount` counts the rows matched; a zero
rowcount raises `HTTPException(404)` with detail "Alert not found". -/
def delete_try (dbFail : Option String) (db : List Int) (alert_id : Int) :
    Except PyExc (List Int × DeleteOk) :=
  match dbFail with
  | some m => Except.error (PyExc.dbError m)
  | none =>
    let rowcount := db.countP (fun r => r == alert_id)
    let db2 := db.filter (fun r => !(r == alert_id))
    if rowcount = 0 then Except.error (PyExc.httpExc 404 "Alert not found")
    else Except.ok (db2, ⟨true, "Alert " ++ toString alert_id ++ " deleted successfully"⟩)

/-- Embeds `delete_snort_alert` (source lines 314-339): the `except` clause
catches only `mysql.connector.Error` and converts it to a 500; an
`HTTPException` raised inside the `try` block propagates unchanged. -/
def delete_snort_alert (dbFail : Option String) (db : List Int) (alert_id : Int) :
    Except PyExc (List Int × DeleteOk) :=
  match delete_try dbFail db alert_id with
  | Except.ok r => Except.ok r
  | Except.error (PyExc.dbError m) =>
      Except.error (PyExc.httpExc 500 ("Error deleting alert: " ++ m))
  | Except.error (PyExc.httpExc st d) => Except.error (PyExc.httpExc st d)

/-- C10: the endpoint responds 404 "Alert not found" exactly when the
DELETE matched zero rows; when at least one row matched it returns the
success message; and only a `mysql.connector.Error` is converted to a 500,
so the 404 raised inside the `try` block is not turned into a 500. -/
theorem delete_not_found (db : List Int) (alert_id : Int) :
    (delete_snort_alert none db alert_id =
        Except.error (PyExc.httpExc 404 "Alert not found") ↔
      db.countP (fun r => r == alert_id) = 0) ∧
    (db.countP (fun r => r == alert_id) ≠ 0 →
      delete_snort_alert none db alert_id =
        Except.ok (db.filter (fun r => !(r == alert_id)),
          ⟨true, "Alert " ++ toString alert_id ++ " deleted successfully"⟩)) ∧
    (∀ m, delete_snort_alert (some m) db alert_id =
      Except.error (PyExc.httpExc 500 ("Error deleting alert: " ++ m))) := by
  by_cases h : db.countP (fun r => r == alert_id) = 0
  · refine ⟨?_, ?_, ?_⟩
    · simp [delete_snort_alert, delete_try, h]
    · intro hne
      exact absurd h hne
    · intro m
      rfl
  · refine ⟨?_, ?_, ?_⟩
    · simp [delete_snort_alert, delete_try, h]
    · intro _
      simp [delete_snort_alert, delete_try, h]
    · intro m
      rfl

theorem delete_not_found_witness :
    delete_snort_alert none [(1 : Int), 2] 3 =
      Except.error (PyExc.httpExc 404 "Alert not found") ∧
    delete_snort_alert none [(1 : Int), 2] 1 =
      Except.ok ([(1 : Int), 2].filter (fun r => !(r == (1 : Int))),
        ⟨true, "Alert " ++ toString (1 : Int) ++ " deleted successfully"⟩) ∧
    delete_snort_alert (some "boom") [(1 : Int), 2] 3 =
      Except.error (PyExc.httpExc 500 ("Error deleting alert: " ++ "boom")) :=
  ⟨(delete_not_found [(1 : Int), 2] 3).1.mpr (by decide),
   (delete_not_found [(1 : Int), 2] 1).2.1 (by decide),
   (delete_not_found [(1 : Int), 2] 3).2.2 "boom"⟩

end SnortApi
